import Mathlib

/-!
# learnopengl-golang: 1.1.hello_window, 2.1.hello_triangle, 2.1.hello_triangle_refactoring

The three programs are straight-line sequences of calls into two external
libraries (GLFW for the window, OpenGL for drawing) followed by a render
loop.  The embedding records every library call a program makes, in order,
as a list of `Event`s.  Whatever the libraries answer (errors, object
handles, compile and link statuses, info logs, key states, close requests,
resize notifications) is not decided by the programs, so it is supplied by
an environment `Env`, universally quantified in the theorems.

The render loop runs until the window's should-close flag is set; the
environment supplies one `FrameInput` per iteration, and a run whose frame
inputs are used up before the flag is set has not exited (`exit = none`).
-/

namespace LearnOpenGL

/-! ## Constants of the programs -/

/-- Constant `WindowWidth` (the same in the three files). -/
def WindowWidth : Int := 800

/-- Constant `WindowHeight` (the same in the three files). -/
def WindowHeight : Int := 600

/-- Constant `vertexShaderSource` (both triangle programs). -/
def vertexShaderSource : String :=
  "\n#version 330 core\nlayout (location = 0) in vec3 aPos;\nvoid main()\n\x7b\n\tgl_Position = vec4(aPos.x, aPos.y, aPos.z, 1.0);\n\x7d;\n"

/-- Constant `fragmentShaderSource` (both triangle programs). -/
def fragmentShaderSource : String :=
  "\n#version 330 core\nout vec4 FragColor;\nvoid main()\n\x7b\n    FragColor = vec4(1.0f, 0.5f, 0.2f, 1.0f);\n\x7d;\n"

/-! ## Names of the external libraries

The numeric values of the library constants are not in the repository, so
the constants are kept symbolic. -/

/-- The `gl.*` constants the programs pass. -/
inductive GLenum where
  | VERTEX_SHADER
  | FRAGMENT_SHADER
  | COMPILE_STATUS
  | LINK_STATUS
  | ARRAY_BUFFER
  | STATIC_DRAW
  | FLOAT
  | COLOR_BUFFER_BIT
  | TRIANGLES
  deriving DecidableEq, Repr

/-- The `glfw` window hints the programs set. -/
inductive Hint where
  | ContextVersionMajor
  | ContextVersionMinor
  | OpenGLProfile
  | OpenGLForwardCompatible
  deriving DecidableEq, Repr

/-- The values given to window hints: a number, `glfw.OpenGLCoreProfile` or `glfw.True`. -/
inductive HintValue where
  | num (n : Int)
  | OpenGLCoreProfile
  | True
  deriving DecidableEq, Repr

/-- The keys the programs query. -/
inductive Key where
  | KeyEscape
  deriving DecidableEq, Repr

/-- Type `glfw.Action`, the state of a key. -/
inductive Action where
  | Release
  | Press
  | Repeat
  deriving DecidableEq, Repr

/-- A `float32` constant as the source writes it, a decimal numeral:
`-0.5` is `⟨-5, 1⟩`, `0.0` is `⟨0, 1⟩`, `1.0` is `⟨10, 1⟩`.  Its value is
`mantissa / 10 ^ decimals`. -/
structure Float32 where
  mantissa : Int
  decimals : Nat
  deriving DecidableEq, Repr

/-- One byte of client or buffer memory holding part of a `float32`: byte number
`k` (0 to 3) of the four bytes that store the value `value`.  Bytes are kept
symbolic, so the model does not depend on the byte order of the machine. -/
inductive MemByte where
  | f32 (value : Float32) (k : Nat)
  deriving DecidableEq, Repr

/-- An operand of `fmt.Println`: a piece of text, or a string made of raw bytes. -/
inductive Operand where
  | text (s : String)
  | bytes (b : List Nat)
  deriving DecidableEq, Repr

/-- One call into an external library (or one line printed), with its arguments.
Calls that create an object also record the handle the library returned.  The
helpers `gl.Strs`, `gl.Ptr` and `gl.PtrOffset` only convert Go values into
pointers and are not recorded; the nil arguments of a call are left out. -/
inductive Event where
  -- package glfw
  | glfwInit
  | windowHint (target : Hint) (value : HintValue)
  | createWindow (width height : Int) (title : String)
  | makeContextCurrent
  | setFramebufferSizeCallback
  | shouldClose
  | getKey (key : Key)
  | setShouldClose (value : Bool)
  | swapBuffers
  | pollEvents
  -- package fmt
  | println (operands : List Operand)
  -- package gl
  | glInit
  | viewport (x y width height : Int)
  | createShader (kind : GLenum) (ret : Nat)
  | shaderSource (shader : Nat) (count : Int) (source : String)
  | compileShader (shader : Nat)
  | getShaderiv (shader : Nat) (pname : GLenum)
  | getShaderInfoLog (shader : Nat) (bufSize : Int)
  | createProgram (ret : Nat)
  | attachShader (program shader : Nat)
  | linkProgram (program : Nat)
  | getProgramiv (program : Nat) (pname : GLenum)
  | getProgramInfoLog (program : Nat) (bufSize : Int)
  | deleteShader (shader : Nat)
  | genVertexArrays (n : Int) (ret : Nat)
  | genBuffers (n : Int) (ret : Nat)
  | bindVertexArray (array : Nat)
  | bindBuffer (target : GLenum) (buffer : Nat)
  | bufferData (target : GLenum) (size : Int) (data : List MemByte) (usage : GLenum)
  | vertexAttribPointer (index : Nat) (size : Int) (xtype : GLenum) (normalized : Bool)
      (stride : Int) (offset : Int)
  | enableVertexAttribArray (index : Nat)
  | clearColor (red green blue alpha : Float32)
  | clear (mask : GLenum)
  | useProgram (program : Nat)
  | drawArrays (mode : GLenum) (first : Int) (count : Int)
  | deleteVertexArrays (n : Int) (array : Nat)
  | deleteBuffers (n : Int) (buffer : Nat)
  | deleteProgram (program : Nat)
  deriving DecidableEq, Repr

/-! ## What the environment decides -/

/-- What the graphics driver answers during the setup of a triangle program:
the handles returned by the five object-creating calls, what the three status
queries store into the variable they are given (`some s` when the query stores
the status `s`, `none` when it stores nothing and leaves the variable as it
was, as a query on a name that is no object does), and the info log the driver
holds for each object. -/
structure Driver where
  vertexShader : Nat
  fragmentShader : Nat
  program : Nat
  vao : Nat
  vbo : Nat
  vertexStatus : Option Int
  fragmentStatus : Option Int
  linkStatus : Option Int
  vertexLog : List Nat
  fragmentLog : List Nat
  programLog : List Nat
  deriving DecidableEq, Repr

/-- What a library call may do to the window's should-close flag. -/
inductive FlagEffect where
  | keep
  | set
  | clear
  deriving DecidableEq, Repr

/-- The flag after a library call with the given effect. -/
def FlagEffect.apply : FlagEffect → Bool → Bool
  | .keep, flag => flag
  | .set, _ => true
  | .clear, _ => false

/-- What the window system answers during one iteration of the render loop:
the state of the escape key when it is queried, what `SwapBuffers` and
`PollEvents` do to the should-close flag (a close request sets it), and the
framebuffer sizes reported to the size callback while events are polled. -/
structure FrameInput where
  escape : Action
  swapEffect : FlagEffect
  pollEffect : FlagEffect
  resizes : List (Int × Int)
  deriving DecidableEq, Repr

/-- Everything the outside world decides in one run of a program.  An error
value is `none` for `nil` and `some text` for an error with that message. -/
structure Env where
  goos : String
  glfwInitErr : Option String
  createWindowErr : Option String
  windowIsNil : Bool
  glInitErr : Option String
  drv : Driver
  frames : List FrameInput
  deriving DecidableEq, Repr

/-- The observable outcome of a run: the calls made, in order, and the exit
code passed to `os.Exit` (`none` when the render loop is still running after
the last supplied frame input).  `os.Exit` does not run deferred calls, so the
deferred `glfw.Terminate` and the two deferred frees never appear. -/
structure Run where
  events : List Event
  exit : Option Nat
  deriving DecidableEq, Repr

/-! ## Behaviour of library calls that the programs depend on -/

/-- The bytes `gl.GetShaderInfoLog` / `gl.GetProgramInfoLog` leave in the caller's
buffer `buf` when called with capacity `bufSize` and a nil length pointer: at
most `bufSize - 1` bytes of the driver's log followed by a terminating zero; the
rest of the buffer is untouched. -/
def writeInfoLog (bufSize : Nat) (log : List Nat) (buf : List Nat) : List Nat :=
  if bufSize = 0 then buf
  else (log.take (bufSize - 1) ++ [0]) ++ buf.drop ((log.take (bufSize - 1) ++ [0]).length)

/-- The bytes of one operand as `fmt.Println` writes it (the texts of these
programs are ASCII, one byte per character). -/
def Operand.render : Operand → List Nat
  | .text s => s.toList.map Char.toNat
  | .bytes b => b

/-- The bytes one `fmt.Println` call writes: the operands separated by single
spaces, then a newline. -/
def printlnBytes (operands : List Operand) : List Nat :=
  List.intercalate [32] (operands.map Operand.render) ++ [10]

/-- The client memory of a `[]float32`: four bytes per element, in order. -/
def sliceBytes (xs : List Float32) : List MemByte :=
  xs.flatMap fun x => [MemByte.f32 x 0, MemByte.f32 x 1, MemByte.f32 x 2, MemByte.f32 x 3]

/-- The text `fmt.Println` shows for an error value (`<nil>` for a nil error). -/
def errText : Option String → Operand
  | some msg => .text msg
  | none => .text "<nil>"

/-! ## Code shared verbatim by the three programs -/

set_option linter.unusedVariables false in
/-- The closure given to `window.SetFramebufferSizeCallback` (hello_window.go
49-52, hello_triangle.go 68-71, refactoring hello_triangle.go 158-161): called
with the new framebuffer `width` and `height`. -/
def framebufferSizeCallback (width height : Int) : List Event :=
  -- TODO: Add code here
  [.viewport 0 0 WindowWidth WindowHeight]

/-- Function `processInput` (identical in the three files).  `key` is what
`window.GetKey(glfw.KeyEscape)` returns and `flag` the should-close flag before
the call; the result is the calls made and the flag afterwards. -/
def processInput (key : Action) (flag : Bool) : List Event × Bool :=
  if key = Action.Press then
    ([.getKey .KeyEscape, .setShouldClose true], true)
  else
    ([.getKey .KeyEscape], flag)

/-- Lines `glfw.Init()` to the check of `gl.Init()` of `main`, identical in the
three files (hello_window.go 23-58, hello_triangle.go 42-77, refactoring
131-167).  The boolean is `false` when `os.Exit(1)` was called. -/
def startup (env : Env) : List Event × Bool :=
  match env.glfwInitErr with
  | some err => ([.glfwInit, .println [.text err]], false)
  | none =>
    let hints : List Event :=
      [.windowHint .ContextVersionMajor (.num 3),
       .windowHint .ContextVersionMinor (.num 3),
       .windowHint .OpenGLProfile .OpenGLCoreProfile]
      ++ (if env.goos = "darwin" then [.windowHint .OpenGLForwardCompatible .True] else [])
    let create : List Event :=
      [.glfwInit] ++ hints ++ [.createWindow WindowWidth WindowHeight "LearnOpenGL"]
    match env.createWindowErr with
    | some err =>
      (create ++ [.println [.text "Failed to create GLFW window: ", .text err]], false)
    | none =>
      if env.windowIsNil then
        (create ++ [.println [.text "Failed to create GLFW window: ", errText none]], false)
      else
        match env.glInitErr with
        | some err =>
          (create ++ [.makeContextCurrent, .setFramebufferSizeCallback, .glInit,
             .println [.text "Failed to initialize OpenGL: ", .text err]], false)
        | none =>
          (create ++ [.makeContextCurrent, .setFramebufferSizeCallback, .glInit], true)

/-- One iteration of the render loop `for !window.ShouldClose() {...}`, whose
body is `processInput(window)`, then the drawing calls `draw` of the program
(none in hello_window), then `window.SwapBuffers()` and `glfw.PollEvents()`.
The size callback runs inside `PollEvents`, once per reported size. -/
def frame (draw : List Event) (fi : FrameInput) (flag : Bool) : List Event × Bool :=
  let input := processInput fi.escape flag
  (input.1 ++ draw ++ [.swapBuffers] ++ [.pollEvents]
     ++ fi.resizes.flatMap (fun wh => framebufferSizeCallback wh.1 wh.2),
   fi.pollEffect.apply (fi.swapEffect.apply input.2))

/-- The render loop: `flag` is the should-close flag when the loop condition is
evaluated.  The boolean result is `true` when the loop has ended, `false` when
the supplied frame inputs ran out first. -/
def renderLoop (draw : List Event) : Bool → List FrameInput → List Event × Bool
  | true, _ => ([.shouldClose], true)
  | false, [] => ([], false)
  | false, fi :: rest =>
    let body := frame draw fi false
    let tail := renderLoop draw body.2 rest
    (Event.shouldClose :: body.1 ++ tail.1, tail.2)

/-- The contents of `string(infoLog[:512])` after `var infoLog [512]byte` has
been passed, with capacity 512, to an info-log query whose driver-side log is
`driverLog`. -/
def infoLogString (driverLog : List Nat) : List Nat :=
  let infoLog : List Nat := List.replicate 512 0
  let infoLog := writeInfoLog 512 driverLog infoLog
  infoLog.take 512

/-- The drawing calls in the loop body of both triangle programs
(hello_triangle.go 147-152, refactoring 177-182). -/
def drawCalls (shaderProgram VAO : Nat) : List Event :=
  [.clearColor ⟨2, 1⟩ ⟨3, 1⟩ ⟨3, 1⟩ ⟨10, 1⟩,
   .clear .COLOR_BUFFER_BIT,
   .useProgram shaderProgram,
   .bindVertexArray VAO,
   .drawArrays .TRIANGLES 0 3]

/-- The vertex data of both triangle programs (hello_triangle.go 121-125,
refactoring 96-100). -/
def vertices : List Float32 :=
  [⟨-5, 1⟩, ⟨-5, 1⟩, ⟨0, 1⟩,
   ⟨5, 1⟩, ⟨-5, 1⟩, ⟨0, 1⟩,
   ⟨0, 1⟩, ⟨5, 1⟩, ⟨0, 1⟩]

/-! ## 1.1.hello_window -/

namespace HelloWindow

/-- Function `main` of 1.1.hello_window/hello_window.go. -/
def main (env : Env) : Run :=
  let init := startup env
  if init.2 = false then ⟨init.1, some 1⟩
  else
    let loop := renderLoop [] false env.frames
    if loop.2 then ⟨init.1 ++ loop.1, some 0⟩
    else ⟨init.1 ++ loop.1, none⟩

end HelloWindow

/-! ## 2.1.hello_triangle -/

namespace HelloTriangle

/-- Lines 79-119 of `main`: both shaders are compiled and checked, the program is
linked and checked, the shaders are deleted.  The three checks share the one
variable `success` declared at line 85: a query that stores nothing leaves in
it the value of the check before. -/
def shaderSetup (drv : Driver) : List Event :=
  let vertexShader := drv.vertexShader
  let success : Int := 0
  let success := drv.vertexStatus.getD success
  let vertexCompile : List Event :=
    [.createShader .VERTEX_SHADER vertexShader,
     .shaderSource vertexShader 1 vertexShaderSource,
     .compileShader vertexShader,
     .getShaderiv vertexShader .COMPILE_STATUS]
    ++ (if success = 0 then
          [.getShaderInfoLog vertexShader 512,
           .println [.text "ERROR::SHADER::VERTEX::COMPILATION_FAILED\n",
                     .bytes (infoLogString drv.vertexLog)]]
        else [])
  let fragmentShader := drv.fragmentShader
  let success := drv.fragmentStatus.getD success
  let fragmentCompile : List Event :=
    [.createShader .FRAGMENT_SHADER fragmentShader,
     .shaderSource fragmentShader 1 fragmentShaderSource,
     .compileShader fragmentShader,
     .getShaderiv fragmentShader .COMPILE_STATUS]
    ++ (if success = 0 then
          [.getShaderInfoLog fragmentShader 512,
           .println [.text "ERROR::SHADER::FRAGMENT::COMPILATION_FAILED\n",
                     .bytes (infoLogString drv.fragmentLog)]]
        else [])
  let shaderProgram := drv.program
  let success := drv.linkStatus.getD success
  let link : List Event :=
    [.createProgram shaderProgram,
     .attachShader shaderProgram vertexShader,
     .attachShader shaderProgram fragmentShader,
     .linkProgram shaderProgram,
     .getProgramiv shaderProgram .LINK_STATUS]
    ++ (if success = 0 then
          [.getProgramInfoLog shaderProgram 512,
           .println [.text "ERROR::SHADER::PROGRAM::LINKING_FAILED\n",
                     .bytes (infoLogString drv.programLog)]]
        else [])
    ++ [.deleteShader vertexShader, .deleteShader fragmentShader]
  vertexCompile ++ fragmentCompile ++ link

/-- Lines 121-142 of `main`: the vertex array and the vertex buffer are created
and filled; `VAO` and `VBO` are the names `gl.GenVertexArrays` and
`gl.GenBuffers` return. -/
def vertexSetup (VAO VBO : Nat) : List Event :=
  [.genVertexArrays 1 VAO,
   .genBuffers 1 VBO,
   .bindVertexArray VAO,
   .bindBuffer .ARRAY_BUFFER VBO,
   .bufferData .ARRAY_BUFFER (vertices.length * 4)
     ((sliceBytes vertices).take (vertices.length * 4)) .STATIC_DRAW,
   .vertexAttribPointer 0 3 .FLOAT false (3 * 4) 0,
   .enableVertexAttribArray 0,
   .bindBuffer .ARRAY_BUFFER 0,
   .bindVertexArray 0]

/-- Function `main` of 2.1.hello_triangle/hello_triangle.go: lines 42-77 are
`startup`, lines 79-119 `shaderSetup`, lines 121-142 `vertexSetup`, then the
render loop (144-156) and the teardown (158-162). -/
def main (env : Env) : Run :=
  let init := startup env
  if init.2 = false then ⟨init.1, some 1⟩
  else
    let shaderProgram := env.drv.program
    let VAO := env.drv.vao
    let VBO := env.drv.vbo
    let setup := init.1 ++ shaderSetup env.drv ++ vertexSetup VAO VBO
    let loop := renderLoop (drawCalls shaderProgram VAO) false env.frames
    if loop.2 then
      ⟨setup ++ loop.1
         ++ [.deleteVertexArrays 1 VAO, .deleteBuffers 1 VBO, .deleteProgram shaderProgram],
       some 0⟩
    else ⟨setup ++ loop.1, none⟩

end HelloTriangle

/-! ## 2.1.hello_triangle_refactoring -/

namespace Refactoring

/-- Function `checkShaderCompileErrors`; `stored` is what the `COMPILE_STATUS`
query stores into the fresh variable `success` and `driverLog` the info log the
driver holds. -/
def checkShaderCompileErrors (shader : Nat) (stored : Option Int) (driverLog : List Nat) :
    List Event :=
  let success : Int := 0
  let success := stored.getD success
  [.getShaderiv shader .COMPILE_STATUS]
  ++ (if success = 0 then
        [.getShaderInfoLog shader 512,
         .println [.text "ERROR::SHADER::COMPILATION_FAILED\n",
                   .bytes (infoLogString driverLog)]]
      else [])

/-- Function `checkProgramLinkErrors`; `stored` is what the `LINK_STATUS` query
stores into the fresh variable `success` and `driverLog` the info log the
driver holds. -/
def checkProgramLinkErrors (program : Nat) (stored : Option Int) (driverLog : List Nat) :
    List Event :=
  let success : Int := 0
  let success := stored.getD success
  [.getProgramiv program .LINK_STATUS]
  ++ (if success = 0 then
        [.getProgramInfoLog program 512,
         .println [.text "ERROR::PROGRAM::LINK_FAILED\n",
                   .bytes (infoLogString driverLog)]]
      else [])

/-- Function `compileShader`: the returned slice and the calls made. -/
def compileShader (drv : Driver) : List Nat × List Event :=
  let vertexShader := drv.vertexShader
  let fragmentShader := drv.fragmentShader
  ([vertexShader, fragmentShader],
   [.createShader .VERTEX_SHADER vertexShader,
    .shaderSource vertexShader 1 vertexShaderSource,
    .compileShader vertexShader]
   ++ checkShaderCompileErrors vertexShader drv.vertexStatus drv.vertexLog
   ++ [.createShader .FRAGMENT_SHADER fragmentShader,
       .shaderSource fragmentShader 1 fragmentShaderSource,
       .compileShader fragmentShader]
   ++ checkShaderCompileErrors fragmentShader drv.fragmentStatus drv.fragmentLog)

/-- Function `linkShaders`: `created` is the handle `gl.CreateProgram` returns,
`linkStatus` and `driverLog` what the driver reports for the link. -/
def linkShaders (created : Nat) (linkStatus : Option Int) (driverLog : List Nat)
    (shaders : List Nat) : Nat × List Event :=
  let program := created
  (program,
   [.createProgram program]
   ++ shaders.map (fun shader => Event.attachShader program shader)
   ++ [.linkProgram program]
   ++ checkProgramLinkErrors program linkStatus driverLog
   ++ shaders.map (fun shader => Event.deleteShader shader))

/-- Function `createTriangleVAO`: `genVAO` and `genVBO` are the names
`gl.GenVertexArrays` and `gl.GenBuffers` return. -/
def createTriangleVAO (genVAO genVBO : Nat) : Nat × List Event :=
  let VAO := genVAO
  let VBO := genVBO
  (VAO,
   [.genVertexArrays 1 VAO,
    .genBuffers 1 VBO,
    .bindVertexArray VAO,
    .bindBuffer .ARRAY_BUFFER VBO,
    .bufferData .ARRAY_BUFFER (vertices.length * 4)
      ((sliceBytes vertices).take (vertices.length * 4)) .STATIC_DRAW,
    .vertexAttribPointer 0 3 .FLOAT false (3 * 4) 0,
    .enableVertexAttribArray 0,
    .bindVertexArray 0])

/-- Function `main` of 2.1.hello_triangle_refactoring/hello_triangle.go. -/
def main (env : Env) : Run :=
  let init := startup env
  if init.2 = false then ⟨init.1, some 1⟩
  else
    let shaders := compileShader env.drv
    let shaderProgram :=
      linkShaders env.drv.program env.drv.linkStatus env.drv.programLog shaders.1
    let VAO := createTriangleVAO env.drv.vao env.drv.vbo
    let setup := init.1 ++ shaders.2 ++ shaderProgram.2 ++ VAO.2
    let loop := renderLoop (drawCalls shaderProgram.1 VAO.1) false env.frames
    if loop.2 then
      -- gl.DeleteBuffers(1, &VBO) is commented out in the source
      ⟨setup ++ loop.1 ++ [.deleteVertexArrays 1 VAO.1, .deleteProgram shaderProgram.1],
       some 0⟩
    else ⟨setup ++ loop.1, none⟩

end Refactoring

/-! ## Sample environments -/

/-- A driver that accepts both shaders and the link. -/
def goodDriver : Driver :=
  { vertexShader := 1, fragmentShader := 2, program := 3, vao := 4, vbo := 5,
    vertexStatus := some 1, fragmentStatus := some 1, linkStatus := some 1,
    vertexLog := [], fragmentLog := [], programLog := [] }

/-- A frame in which the escape key is down. -/
def escapeFrame : FrameInput :=
  { escape := .Press, swapEffect := .keep, pollEffect := .keep, resizes := [] }

/-- A frame in which nothing happens but a resize to 1024 x 768. -/
def resizeFrame : FrameInput :=
  { escape := .Release, swapEffect := .keep, pollEffect := .keep, resizes := [(1024, 768)] }

/-- A run on Linux in which every initialisation succeeds, the window is resized
during the first frame and the escape key is pressed in the second. -/
def sampleEnv : Env :=
  { goos := "linux", glfwInitErr := none, createWindowErr := none, windowIsNil := false,
    glInitErr := none, drv := goodDriver, frames := [resizeFrame, escapeFrame] }

/-- A driver whose second `gl.CreateShader` fails and returns the name 0, on
which the compile-status query stores nothing; the vertex shader compiles and
the link query stores a non-zero status. -/
def staleDriver : Driver :=
  { vertexShader := 1, fragmentShader := 0, program := 3, vao := 4, vbo := 5,
    vertexStatus := some 1, fragmentStatus := none, linkStatus := some 1,
    vertexLog := [], fragmentLog := [], programLog := [] }

/-- The sample run with the driver `staleDriver`. -/
def staleEnv : Env :=
  { goos := "linux", glfwInitErr := none, createWindowErr := none, windowIsNil := false,
    glInitErr := none, drv := staleDriver, frames := [resizeFrame, escapeFrame] }

/-! ## Observations on traces -/

/-- The lines printed, in order: the operands of each `fmt.Println`. -/
def prints (events : List Event) : List (List Operand) :=
  events.filterMap fun e =>
    match e with
    | .println operands => some operands
    | _ => none

/-- Whether an event is a shader or program call, a buffer or vertex-array call,
or a clear or draw call: every `gl.*` call other than `gl.Init` and
`gl.Viewport`. -/
def Event.isShaderBufferOrDraw : Event → Bool
  | .glfwInit => false
  | .windowHint _ _ => false
  | .createWindow _ _ _ => false
  | .makeContextCurrent => false
  | .setFramebufferSizeCallback => false
  | .shouldClose => false
  | .getKey _ => false
  | .setShouldClose _ => false
  | .swapBuffers => false
  | .pollEvents => false
  | .println _ => false
  | .glInit => false
  | .viewport _ _ _ _ => false
  | _ => true

/-- Whether an event is a call into the graphics API (package `gl`). -/
def Event.isGL : Event → Bool
  | .glInit => true
  | .viewport _ _ _ _ => true
  | e => e.isShaderBufferOrDraw

/-- The graphics-API calls of a trace, in order. -/
def glCalls (events : List Event) : List Event := events.filter Event.isGL

/-- Whether one of the three initialisations fails: `glfw.Init` returns an
error, `glfw.CreateWindow` returns an error or a nil window, or `gl.Init`
returns an error. -/
def initFails (env : Env) : Bool :=
  env.glfwInitErr.isSome || env.createWindowErr.isSome || env.windowIsNil
    || env.glInitErr.isSome

/-- Whether the render loop ends within the supplied frame inputs. -/
def loopEnds (frames : List FrameInput) : Bool := (renderLoop [] false frames).2

/-- An object living in the graphics driver, named by kind and handle. -/
inductive GPUObject where
  | shader (handle : Nat)
  | program (handle : Nat)
  | vertexArray (handle : Nat)
  | buffer (handle : Nat)
  deriving DecidableEq, Repr

/-- The object a call creates, if it creates one. -/
def Event.creates : Event → Option GPUObject
  | .createShader _ h => some (.shader h)
  | .createProgram h => some (.program h)
  | .genVertexArrays _ h => some (.vertexArray h)
  | .genBuffers _ h => some (.buffer h)
  | _ => none

/-- The objects a trace creates, in order of creation. -/
def created (events : List Event) : List GPUObject := events.filterMap Event.creates

/-- The object a call deletes, if it deletes one. -/
def Event.deletes : Event → Option GPUObject
  | .deleteShader h => some (.shader h)
  | .deleteProgram h => some (.program h)
  | .deleteVertexArrays _ h => some (.vertexArray h)
  | .deleteBuffers _ h => some (.buffer h)
  | _ => none

/-- The objects a trace deletes, one entry per delete call, in order. -/
def deleted (events : List Event) : List GPUObject := events.filterMap Event.deletes

/-- The original trace rebuilt from the trace of the refactoring variant: a
`gl.BindBuffer(gl.ARRAY_BUFFER, 0)` is added right after each
`gl.EnableVertexAttribArray`. -/
def insertUnbind (events : List Event) : List Event :=
  events.flatMap fun e =>
    match e with
    | .enableVertexAttribArray _ => [e, .bindBuffer .ARRAY_BUFFER 0]
    | _ => [e]

/-- A trace without its `gl.DeleteBuffers` calls. -/
def dropBufferDeletes (events : List Event) : List Event :=
  events.filter fun e =>
    match e with
    | .deleteBuffers _ _ => false
    | _ => true

/-- The calls one iteration of the render loop of a triangle program is to
issue after the loop condition, in the order the specification lists them: the
input check, the clear to (0.2, 0.3, 0.3, 1.0), the activation of the program,
the binding of the vertex array, one draw of 3 vertices from 0 as a triangle
list, the buffer swap, the event poll (inside which the size callback sets the
viewport once per reported size). -/
def iterationCalls (shaderProgram VAO : Nat) (fi : FrameInput) : List Event :=
  [Event.getKey .KeyEscape]
  ++ (if fi.escape = Action.Press then [Event.setShouldClose true] else [])
  ++ [Event.clearColor ⟨2, 1⟩ ⟨3, 1⟩ ⟨3, 1⟩ ⟨10, 1⟩,
      Event.clear .COLOR_BUFFER_BIT,
      Event.useProgram shaderProgram,
      Event.bindVertexArray VAO,
      Event.drawArrays .TRIANGLES 0 3,
      Event.swapBuffers,
      Event.pollEvents]
  ++ fi.resizes.map (fun _ => Event.viewport 0 0 800 600)

/-- The number of iterations the render loop runs on the supplied frame inputs,
`flag` being the should-close flag when the loop condition is first evaluated. -/
def iterations : Bool → List FrameInput → Nat
  | true, _ => 0
  | false, [] => 0
  | false, fi :: rest => iterations (frame [] fi false).2 rest + 1

/-- The binding state of the graphics context after a trace: the program named
by the latest `gl.UseProgram` and the vertex array named by the latest
`gl.BindVertexArray`, starting from the pair `st`. -/
def bindingsAfter : Nat × Nat → List Event → Nat × Nat
  | st, [] => st
  | st, .useProgram p :: rest => bindingsAfter (p, st.2) rest
  | st, .bindVertexArray v :: rest => bindingsAfter (st.1, v) rest
  | st, _ :: rest => bindingsAfter st rest

/-- For each `gl.DrawArrays` of a trace, in order, the program in use and the
vertex array bound when the draw is issued. -/
def drawContexts : Nat × Nat → List Event → List (Nat × Nat)
  | _, [] => []
  | st, .useProgram p :: rest => drawContexts (p, st.2) rest
  | st, .bindVertexArray v :: rest => drawContexts (st.1, v) rest
  | st, .drawArrays _ _ _ :: rest => st :: drawContexts st rest
  | st, _ :: rest => drawContexts st rest

/-- Whether an event is neither an attribute enabling nor a buffer deletion, the
two calls around which the traces of the two triangle programs differ. -/
def Event.isPlain : Event → Bool
  | .enableVertexAttribArray _ => false
  | .deleteBuffers _ _ => false
  | _ => true

/-- Whether an event creates no object, draws nothing and leaves the program in
use and the bound vertex array as they are. -/
def Event.isQuiet (e : Event) : Bool :=
  e.creates.isNone &&
  match e with
  | .drawArrays _ _ _ => false
  | .useProgram _ => false
  | .bindVertexArray _ => false
  | _ => true

/-- The shader and program calls of the refactoring variant, `compileShader`
followed by `linkShaders` on its result. -/
def Refactoring.shaderBuild (drv : Driver) : List Event :=
  (Refactoring.compileShader drv).2
  ++ (Refactoring.linkShaders drv.program drv.linkStatus drv.programLog
        (Refactoring.compileShader drv).1).2

/-- Whether every status query of the original program that stores nothing
finds 0 in the shared variable `success`: the fragment query stores a status or
the vertex check left 0, and the link query stores a status or the fragment
check left 0. -/
def staleSuccessIsZero (drv : Driver) : Bool :=
  (drv.fragmentStatus.isSome || decide (drv.vertexStatus.getD 0 = 0))
  && (drv.linkStatus.isSome
      || decide (drv.fragmentStatus.getD (drv.vertexStatus.getD 0) = 0))

/-- Whether an event respects the 512-byte log buffer: an info-log query passes
capacity 512, and a printed line holds no raw-byte operand longer than 512. -/
def Event.logWithinBuffer : Event → Bool
  | .getShaderInfoLog _ bufSize => bufSize == 512
  | .getProgramInfoLog _ bufSize => bufSize == 512
  | .println operands =>
    operands.all fun o =>
      match o with
      | .bytes b => decide (b.length ≤ 512)
      | .text _ => true
  | _ => true

/-! ## Lemmas on the shared code -/

theorem prints_append (a b : List Event) : prints (a ++ b) = prints a ++ prints b := by
  simp [prints, List.filterMap_append]

theorem infoLogString_length (driverLog : List Nat) :
    (infoLogString driverLog).length = 512 := by
  have h : (List.take 511 driverLog).length ≤ 511 := by
    rw [List.length_take]; omega
  simp only [infoLogString, writeInfoLog, List.length_take, List.length_append,
    List.length_drop, List.length_replicate, List.length_cons, List.length_nil]
  norm_num
  omega

theorem infoLogString_prefix (driverLog : List Nat) :
    (infoLogString driverLog).take (min driverLog.length 511) = driverLog.take 511 := by
  have h : (List.take 511 driverLog).length = min driverLog.length 511 := by
    simp [List.length_take, Nat.min_comm]
  have h2 : min (min driverLog.length 511) 512 = (List.take 511 driverLog).length := by
    rw [h]; omega
  have h3 : writeInfoLog 512 driverLog (List.replicate 512 0)
      = List.take 511 driverLog ++ ([0] ++ (List.replicate 512 0).drop
          ((List.take 511 driverLog ++ [0]).length)) := by
    unfold writeInfoLog
    rw [if_neg (by decide), List.append_assoc]
  simp only [infoLogString]
  rw [List.take_take, h2, h3, List.take_left]

theorem printlnBytes_header_log (header : String) (log : List Nat) :
    printlnBytes [Operand.text header, Operand.bytes log]
      = (Operand.text header).render ++ [32] ++ log ++ [10] := by
  simp [printlnBytes, List.intercalate, Operand.render, List.intersperse]

/-- Every event of the render loop satisfies a property that holds of the
drawing calls and of the calls the loop itself makes. -/
theorem renderLoop_all (P : Event → Bool) (draw : List Event) (hd : draw.all P = true)
    (h1 : P .shouldClose = true) (h2 : P (.getKey .KeyEscape) = true)
    (h3 : P (.setShouldClose true) = true) (h4 : P .swapBuffers = true)
    (h5 : P .pollEvents = true) (h6 : P (.viewport 0 0 WindowWidth WindowHeight) = true) :
    ∀ (frames : List FrameInput) (flag : Bool),
      (renderLoop draw flag frames).1.all P = true := by
  intro frames
  induction frames with
  | nil => intro flag; cases flag <;> simp [renderLoop, h1]
  | cons fi rest ih =>
    intro flag
    cases flag with
    | true => simp [renderLoop, h1]
    | false =>
      have hcb : (fi.resizes.flatMap
          (fun wh => framebufferSizeCallback wh.1 wh.2)).all P = true := by
        simp only [List.all_eq_true, List.mem_flatMap, framebufferSizeCallback]
        rintro e ⟨wh, _, he⟩
        rw [List.mem_singleton.mp he]; exact h6
      have hin : (processInput fi.escape false).1.all P = true := by
        unfold processInput
        split <;> simp [h2, h3]
      simp only [renderLoop, frame, List.all_cons, List.all_append, h1, hin, hd, hcb, ih,
        List.all_nil, h4, h5, Bool.and_self, Bool.and_true]

theorem renderLoop_ends_indep (draw : List Event) :
    ∀ (frames : List FrameInput) (flag : Bool),
      (renderLoop draw flag frames).2 = (renderLoop [] flag frames).2 := by
  intro frames
  induction frames with
  | nil => intro flag; cases flag <;> rfl
  | cons fi rest ih =>
    intro flag
    cases flag with
    | true => rfl
    | false =>
      simp only [renderLoop, frame]
      exact ih _

theorem startup_ok_iff (env : Env) : (startup env).2 = false ↔ initFails env = true := by
  obtain ⟨goos, e1, e2, wn, e3, drv, frames⟩ := env
  cases e1 <;> cases e2 <;> cases wn <;> cases e3 <;> simp [startup, initFails]

theorem startup_no_rendering (env : Env) :
    (startup env).1.any Event.isShaderBufferOrDraw = false := by
  obtain ⟨goos, e1, e2, wn, e3, drv, frames⟩ := env
  cases e1 <;> cases e2 <;> cases wn <;> cases e3 <;> by_cases hg : goos = "darwin" <;>
    simp [startup, hg, Event.isShaderBufferOrDraw]

theorem helloWindow_exit (env : Env) :
    (HelloWindow.main env).exit
      = if initFails env = true then some 1
        else if loopEnds env.frames = true then some 0 else none := by
  have hiff := startup_ok_iff env
  unfold HelloWindow.main loopEnds
  dsimp only
  split_ifs <;> first | rfl | (exfalso; simp_all)

theorem helloTriangle_exit (env : Env) :
    (HelloTriangle.main env).exit
      = if initFails env = true then some 1
        else if loopEnds env.frames = true then some 0 else none := by
  have hiff := startup_ok_iff env
  have he := renderLoop_ends_indep (drawCalls env.drv.program env.drv.vao) env.frames false
  unfold HelloTriangle.main loopEnds
  dsimp only
  rw [he]
  split_ifs <;> first | rfl | (exfalso; simp_all)

theorem refactoring_exit (env : Env) :
    (Refactoring.main env).exit
      = if initFails env = true then some 1
        else if loopEnds env.frames = true then some 0 else none := by
  have hiff := startup_ok_iff env
  have he := renderLoop_ends_indep (drawCalls env.drv.program env.drv.vao) env.frames false
  unfold Refactoring.main loopEnds
  dsimp only
  rw [show (Refactoring.linkShaders env.drv.program env.drv.linkStatus env.drv.programLog
        (Refactoring.compileShader env.drv).1).1 = env.drv.program from rfl,
      show (Refactoring.createTriangleVAO env.drv.vao env.drv.vbo).1 = env.drv.vao from rfl,
      he]
  split_ifs <;> first | rfl | (exfalso; simp_all)

theorem startup_logWithinBuffer (env : Env) :
    (startup env).1.all Event.logWithinBuffer = true := by
  obtain ⟨goos, e1, e2, wn, e3, drv, frames⟩ := env
  cases e1 <;> cases e2 <;> cases wn <;> cases e3 <;> by_cases hg : goos = "darwin" <;>
    simp [startup, hg, Event.logWithinBuffer, errText]

theorem glCalls_append (a b : List Event) : glCalls (a ++ b) = glCalls a ++ glCalls b := by
  simp [glCalls]

theorem insertUnbind_append (a b : List Event) :
    insertUnbind (a ++ b) = insertUnbind a ++ insertUnbind b := by
  simp [insertUnbind]

theorem dropBufferDeletes_append (a b : List Event) :
    dropBufferDeletes (a ++ b) = dropBufferDeletes a ++ dropBufferDeletes b := by
  simp [dropBufferDeletes]

theorem created_append (a b : List Event) : created (a ++ b) = created a ++ created b := by
  simp [created]

theorem startup_plain (env : Env) : (startup env).1.all Event.isPlain = true := by
  have h := startup_no_rendering env
  rw [List.all_eq_true]
  intro e he
  have := List.any_eq_false.mp h e he
  cases e <;> simp_all [Event.isShaderBufferOrDraw, Event.isPlain]

theorem startup_quiet (env : Env) : (startup env).1.all Event.isQuiet = true := by
  have h := startup_no_rendering env
  rw [List.all_eq_true]
  intro e he
  have := List.any_eq_false.mp h e he
  cases e <;> simp_all [Event.isShaderBufferOrDraw, Event.isQuiet, Event.creates]

theorem insertUnbind_plain (l : List Event) (h : l.all Event.isPlain = true) :
    insertUnbind l = l := by
  induction l with
  | nil => rfl
  | cons e t ih =>
    simp only [List.all_cons, Bool.and_eq_true] at h
    have ht := ih h.2
    have he := h.1
    simp only [insertUnbind, List.flatMap_cons] at ht ⊢
    rw [ht]
    cases e <;> simp_all [Event.isPlain]

theorem dropBufferDeletes_plain (l : List Event) (h : l.all Event.isPlain = true) :
    dropBufferDeletes l = l := by
  rw [dropBufferDeletes, List.filter_eq_self]
  intro e he
  have := List.all_eq_true.mp h e he
  cases e <;> simp_all [Event.isPlain]

theorem glCalls_plain (l : List Event) (h : l.all Event.isPlain = true) :
    (glCalls l).all Event.isPlain = true := by
  rw [List.all_eq_true] at h ⊢
  intro e he
  exact h e (List.mem_of_mem_filter he)

theorem created_quiet (l : List Event) (h : l.all Event.isQuiet = true) :
    created l = [] := by
  rw [created, List.filterMap_eq_nil_iff]
  intro e he
  have := List.all_eq_true.mp h e he
  simp only [Event.isQuiet, Bool.and_eq_true, Option.isNone_iff_eq_none] at this
  exact this.1

theorem drawContexts_append (a b : List Event) :
    ∀ st, drawContexts st (a ++ b) = drawContexts st a ++ drawContexts (bindingsAfter st a) b := by
  induction a with
  | nil => intro st; rfl
  | cons e t ih =>
    intro st
    cases e <;> simp [drawContexts, bindingsAfter, ih]

theorem drawContexts_quiet (l : List Event) (h : l.all Event.isQuiet = true) :
    ∀ st, drawContexts st l = [] ∧ bindingsAfter st l = st := by
  induction l with
  | nil => intro st; exact ⟨rfl, rfl⟩
  | cons e t ih =>
    intro st
    simp only [List.all_cons, Bool.and_eq_true] at h
    have ht := ih h.2 st
    have he := h.1
    cases e <;> simp_all [Event.isQuiet, drawContexts, bindingsAfter]

theorem loop_plain (p v : Nat) (frames : List FrameInput) (flag : Bool) :
    (renderLoop (drawCalls p v) flag frames).1.all Event.isPlain = true :=
  renderLoop_all Event.isPlain (drawCalls p v) (by simp [drawCalls, Event.isPlain])
    rfl rfl rfl rfl rfl rfl frames flag

theorem loop_created (p v : Nat) (frames : List FrameInput) (flag : Bool) :
    created (renderLoop (drawCalls p v) flag frames).1 = [] := by
  have h := renderLoop_all (fun e => e.creates.isNone) (drawCalls p v)
    (by simp [drawCalls, Event.creates]) rfl rfl rfl rfl rfl rfl frames flag
  rw [created, List.filterMap_eq_nil_iff]
  intro e he
  have := List.all_eq_true.mp h e he
  simpa using this

theorem callbacks_viewport (l : List (Int × Int)) :
    l.flatMap (fun wh => framebufferSizeCallback wh.1 wh.2)
      = l.map (fun _ => Event.viewport 0 0 800 600) := by
  induction l with
  | nil => rfl
  | cons a t ih =>
    simp only [List.flatMap_cons, List.map_cons, ih]
    rfl

theorem frame_iterationCalls (p v : Nat) (fi : FrameInput) (flag : Bool) :
    (frame (drawCalls p v) fi flag).1 = iterationCalls p v fi := by
  simp only [frame, callbacks_viewport, iterationCalls, processInput, drawCalls]
  split <;> simp

theorem frame_flag_indep (draw : List Event) (fi : FrameInput) (flag : Bool) :
    (frame draw fi flag).2 = (frame [] fi flag).2 := rfl

theorem loop_iterations (p v : Nat) :
    ∀ (frames : List FrameInput) (flag : Bool),
      (renderLoop (drawCalls p v) flag frames).1
        = (frames.take (iterations flag frames)).flatMap
            (fun fi => Event.shouldClose :: iterationCalls p v fi)
          ++ (if (renderLoop [] flag frames).2 = true then [Event.shouldClose] else []) := by
  intro frames
  induction frames with
  | nil => intro flag; cases flag <;> simp [renderLoop, iterations]
  | cons fi rest ih =>
    intro flag
    cases flag with
    | true => simp [renderLoop, iterations]
    | false =>
      simp only [renderLoop, iterations, List.take_succ_cons, List.flatMap_cons,
        frame_iterationCalls, ih, frame_flag_indep (drawCalls p v)]
      simp [List.append_assoc]

theorem loop_drawContexts (p v : Nat) :
    ∀ (frames : List FrameInput) (flag : Bool) (st : Nat × Nat),
      drawContexts st (renderLoop (drawCalls p v) flag frames).1
        = List.replicate (iterations flag frames) (p, v) := by
  intro frames
  induction frames with
  | nil => intro flag st; cases flag <;> simp [renderLoop, iterations, drawContexts]
  | cons fi rest ih =>
    intro flag st
    cases flag with
    | true => simp [renderLoop, iterations, drawContexts]
    | false =>
      have hcb : ∀ (n : Nat) (st : Nat × Nat),
          drawContexts st (List.replicate n (Event.viewport 0 0 800 600)) = []
          ∧ bindingsAfter st (List.replicate n (Event.viewport 0 0 800 600)) = st := by
        intro n st
        apply drawContexts_quiet
        simp [List.all_eq_true, Event.isQuiet, Event.creates]
      simp only [renderLoop, iterations, frame_iterationCalls, frame_flag_indep (drawCalls p v)]
      rw [List.replicate_succ]
      unfold iterationCalls
      split <;>
        simp [drawContexts, drawContexts_append, bindingsAfter, (hcb _ _).1, (hcb _ _).2, ih]

theorem helloTriangle_events (env : Env) :
    (HelloTriangle.main env).events
      = if initFails env = true then (startup env).1
        else (startup env).1 ++ HelloTriangle.shaderSetup env.drv
          ++ HelloTriangle.vertexSetup env.drv.vao env.drv.vbo
          ++ (renderLoop (drawCalls env.drv.program env.drv.vao) false env.frames).1
          ++ (if loopEnds env.frames = true then
                [Event.deleteVertexArrays 1 env.drv.vao, Event.deleteBuffers 1 env.drv.vbo,
                 Event.deleteProgram env.drv.program]
              else []) := by
  have hiff := startup_ok_iff env
  have he := renderLoop_ends_indep (drawCalls env.drv.program env.drv.vao) env.frames false
  unfold HelloTriangle.main loopEnds
  dsimp only
  rw [he]
  split_ifs <;> first | rfl | (exfalso; simp_all; done) | simp

theorem refactoring_events (env : Env) :
    (Refactoring.main env).events
      = if initFails env = true then (startup env).1
        else (startup env).1 ++ Refactoring.shaderBuild env.drv
          ++ (Refactoring.createTriangleVAO env.drv.vao env.drv.vbo).2
          ++ (renderLoop (drawCalls env.drv.program env.drv.vao) false env.frames).1
          ++ (if loopEnds env.frames = true then
                [Event.deleteVertexArrays 1 env.drv.vao, Event.deleteProgram env.drv.program]
              else []) := by
  have hiff := startup_ok_iff env
  have he := renderLoop_ends_indep (drawCalls env.drv.program env.drv.vao) env.frames false
  unfold Refactoring.main loopEnds Refactoring.shaderBuild
  dsimp only
  rw [show (Refactoring.linkShaders env.drv.program env.drv.linkStatus env.drv.programLog
        (Refactoring.compileShader env.drv).1).1 = env.drv.program from rfl,
      show (Refactoring.createTriangleVAO env.drv.vao env.drv.vbo).1 = env.drv.vao from rfl,
      he]
  split_ifs <;> first | rfl | (exfalso; simp_all; done) | simp

theorem shaderBuild_plain (drv : Driver) :
    (Refactoring.shaderBuild drv).all Event.isPlain = true := by
  simp only [Refactoring.shaderBuild, Refactoring.compileShader, Refactoring.linkShaders,
    Refactoring.checkShaderCompileErrors, Refactoring.checkProgramLinkErrors]
  split_ifs <;> simp [Event.isPlain]

theorem shaderSetup_plain (drv : Driver) :
    (HelloTriangle.shaderSetup drv).all Event.isPlain = true := by
  simp only [HelloTriangle.shaderSetup]
  split_ifs <;> simp [Event.isPlain]

theorem shader_glCalls_iff (drv : Driver) :
    glCalls (HelloTriangle.shaderSetup drv) = glCalls (Refactoring.shaderBuild drv)
      ↔ staleSuccessIsZero drv = true := by
  obtain ⟨vs, fs, p, vao, vbo, s1, s2, s3, l1, l2, l3⟩ := drv
  cases s1 <;> cases s2 <;> cases s3 <;>
    simp only [HelloTriangle.shaderSetup, Refactoring.shaderBuild, Refactoring.compileShader,
      Refactoring.linkShaders, Refactoring.checkShaderCompileErrors,
      Refactoring.checkProgramLinkErrors, staleSuccessIsZero, Option.getD_some,
      Option.getD_none, Option.isSome_some, Option.isSome_none] <;>
    split_ifs <;>
    simp_all [glCalls, Event.isGL, Event.isShaderBufferOrDraw]

theorem vertex_glCalls_eq (VAO VBO : Nat) :
    glCalls (HelloTriangle.vertexSetup VAO VBO)
      = insertUnbind (glCalls (Refactoring.createTriangleVAO VAO VBO).2) := by
  simp [HelloTriangle.vertexSetup, Refactoring.createTriangleVAO, glCalls, insertUnbind,
    Event.isGL, Event.isShaderBufferOrDraw]

theorem shaderSetup_quiet_draw (drv : Driver) (st : Nat × Nat) :
    drawContexts st (HelloTriangle.shaderSetup drv) = []
    ∧ drawContexts st (Refactoring.shaderBuild drv) = [] := by
  constructor
  · simp only [HelloTriangle.shaderSetup]
    split_ifs <;> simp [drawContexts]
  · simp only [Refactoring.shaderBuild, Refactoring.compileShader, Refactoring.linkShaders,
    Refactoring.checkShaderCompileErrors, Refactoring.checkProgramLinkErrors]
    split_ifs <;> simp [drawContexts]

theorem shaderSetup_created (drv : Driver) :
    created (HelloTriangle.shaderSetup drv)
      = [.shader drv.vertexShader, .shader drv.fragmentShader, .program drv.program]
    ∧ created (Refactoring.shaderBuild drv)
      = [.shader drv.vertexShader, .shader drv.fragmentShader, .program drv.program] := by
  constructor
  · simp only [HelloTriangle.shaderSetup]
    split_ifs <;> simp [created, Event.creates]
  · simp only [Refactoring.shaderBuild, Refactoring.compileShader, Refactoring.linkShaders,
    Refactoring.checkShaderCompileErrors, Refactoring.checkProgramLinkErrors]
    split_ifs <;> simp [created, Event.creates]

theorem deleted_append (a b : List Event) : deleted (a ++ b) = deleted a ++ deleted b := by
  simp [deleted]

theorem startup_deleted (env : Env) : deleted (startup env).1 = [] := by
  have h := startup_no_rendering env
  rw [deleted, List.filterMap_eq_nil_iff]
  intro e he
  have := List.any_eq_false.mp h e he
  cases e <;> simp_all [Event.isShaderBufferOrDraw, Event.deletes]

theorem loop_deleted (p v : Nat) (frames : List FrameInput) (flag : Bool) :
    deleted (renderLoop (drawCalls p v) flag frames).1 = [] := by
  have h := renderLoop_all (fun e => e.deletes.isNone) (drawCalls p v)
    (by simp [drawCalls, Event.deletes]) rfl rfl rfl rfl rfl rfl frames flag
  rw [deleted, List.filterMap_eq_nil_iff]
  intro e he
  have := List.all_eq_true.mp h e he
  simpa using this

theorem shaderSetup_deleted (drv : Driver) :
    deleted (HelloTriangle.shaderSetup drv)
      = [.shader drv.vertexShader, .shader drv.fragmentShader]
    ∧ deleted (Refactoring.shaderBuild drv)
      = [.shader drv.vertexShader, .shader drv.fragmentShader] := by
  constructor
  · simp only [HelloTriangle.shaderSetup]
    split_ifs <;> simp [deleted, Event.deletes]
  · simp only [Refactoring.shaderBuild, Refactoring.compileShader, Refactoring.linkShaders,
    Refactoring.checkShaderCompileErrors, Refactoring.checkProgramLinkErrors]
    split_ifs <;> simp [deleted, Event.deletes]

/-- The delete calls of the original triangle program, in every run: the two
shaders after the link and, once the loop has ended, the vertex array, the
vertex buffer and the program. -/
theorem helloTriangle_deleted (env : Env) :
    deleted (HelloTriangle.main env).events
      = if initFails env = true then []
        else [.shader env.drv.vertexShader, .shader env.drv.fragmentShader]
          ++ (if loopEnds env.frames = true then
                [.vertexArray env.drv.vao, .buffer env.drv.vbo, .program env.drv.program]
              else []) := by
  rw [helloTriangle_events]
  by_cases hi : initFails env = true
  · rw [if_pos hi, if_pos hi, startup_deleted]
  · rw [if_neg hi, if_neg hi]
    simp only [deleted_append, startup_deleted, loop_deleted, (shaderSetup_deleted _).1]
    by_cases he : loopEnds env.frames = true <;>
      simp [he, HelloTriangle.vertexSetup, deleted, Event.deletes]

/-- The delete calls of the refactoring variant, in every run: the two shaders
after the link and, once the loop has ended, the vertex array and the program;
the vertex buffer is never deleted. -/
theorem refactoring_deleted (env : Env) :
    deleted (Refactoring.main env).events
      = if initFails env = true then []
        else [.shader env.drv.vertexShader, .shader env.drv.fragmentShader]
          ++ (if loopEnds env.frames = true then
                [.vertexArray env.drv.vao, .program env.drv.program]
              else []) := by
  rw [refactoring_events]
  by_cases hi : initFails env = true
  · rw [if_pos hi, if_pos hi, startup_deleted]
  · rw [if_neg hi, if_neg hi]
    simp only [deleted_append, startup_deleted, loop_deleted, (shaderSetup_deleted _).2]
    by_cases he : loopEnds env.frames = true <;>
      simp [he, Refactoring.createTriangleVAO, deleted, Event.deletes]

/-! ## Theorems -/

/-- C1 (fails on the code): called with the reported size 1024 x 768, the size
callback sets the viewport to the fixed 800 x 600, not to the reported size;
the 800 x 600 viewport call is what each of the three programs issues when
that resize is reported during a run. -/
theorem framebufferSizeCallback_ignores_reported_size :
    framebufferSizeCallback 1024 768 = [Event.viewport 0 0 800 600]
    ∧ framebufferSizeCallback 1024 768 ≠ [Event.viewport 0 0 1024 768]
    ∧ Event.viewport 0 0 800 600 ∈ (HelloWindow.main sampleEnv).events
    ∧ Event.viewport 0 0 1024 768 ∉ (HelloWindow.main sampleEnv).events
    ∧ Event.viewport 0 0 800 600 ∈ (HelloTriangle.main sampleEnv).events
    ∧ Event.viewport 0 0 1024 768 ∉ (HelloTriangle.main sampleEnv).events
    ∧ Event.viewport 0 0 800 600 ∈ (Refactoring.main sampleEnv).events
    ∧ Event.viewport 0 0 1024 768 ∉ (Refactoring.main sampleEnv).events := by
  decide

/-- C4: for every list of shader handles and every link outcome (a status
stored, zero or not, or nothing stored), `linkShaders`
creates the program, attaches the handles of the list in list order, links,
checks the link status, then deletes the handles of the list in list order, one
`DeleteShader` call per element of the list (so a handle is deleted as many
times as it occurs in the list, once when it occurs once), and returns the
handle of the program it created. -/
theorem linkShaders_attaches_links_deletes (created : Nat) (linkStatus : Option Int)
    (driverLog : List Nat) (shaders : List Nat) :
    (Refactoring.linkShaders created linkStatus driverLog shaders).1 = created
    ∧ (Refactoring.linkShaders created linkStatus driverLog shaders).2
        = [Event.createProgram created]
          ++ shaders.map (Event.attachShader created)
          ++ [Event.linkProgram created]
          ++ Refactoring.checkProgramLinkErrors created linkStatus driverLog
          ++ shaders.map Event.deleteShader
    ∧ ((Refactoring.linkShaders created linkStatus driverLog shaders).2.filterMap
          (fun e => match e with | .attachShader p s => some (p, s) | _ => none))
        = shaders.map (fun s => (created, s))
    ∧ ((Refactoring.linkShaders created linkStatus driverLog shaders).2.filterMap
          (fun e => match e with | .deleteShader s => some s | _ => none))
        = shaders
    ∧ (∀ h : Nat,
        ((Refactoring.linkShaders created linkStatus driverLog shaders).2.count
            (Event.deleteShader h)) = shaders.count h) := by
  have hA : ∀ l : List Nat,
      (l.map (Event.attachShader created)).filterMap
          (fun e => match e with | .attachShader p s => some (p, s) | _ => none)
        = l.map (fun s => (created, s)) := by
    intro l; induction l with
    | nil => rfl
    | cons a t ih => simpa using ih
  have hA2 : ∀ l : List Nat,
      (l.map (Event.attachShader created)).filterMap
          (fun e => match e with | .deleteShader s => some s | _ => none) = [] := by
    intro l; induction l with
    | nil => rfl
    | cons a t ih => simp
  have hD : ∀ l : List Nat,
      (l.map Event.deleteShader).filterMap
          (fun e => match e with | .deleteShader s => some s | _ => none) = l := by
    intro l; induction l with
    | nil => rfl
    | cons a t ih => simpa using ih
  have hD2 : ∀ l : List Nat,
      (l.map Event.deleteShader).filterMap
          (fun e => match e with | .attachShader p s => some (p, s) | _ => none) = [] := by
    intro l; induction l with
    | nil => rfl
    | cons a t ih => simp
  have hC : ∀ (h : Nat) (l : List Nat),
      (l.map Event.deleteShader).count (Event.deleteShader h) = l.count h := by
    intro h l; induction l with
    | nil => rfl
    | cons a t ih => simp [List.count_cons, ih]
  have hC2 : ∀ (h : Nat) (l : List Nat),
      (l.map (Event.attachShader created)).count (Event.deleteShader h) = 0 := by
    intro h l; induction l with
    | nil => rfl
    | cons a t ih => simp [List.count_cons, ih]
  refine ⟨rfl, rfl, ?_, ?_, ?_⟩
  · simp only [Refactoring.linkShaders, Refactoring.checkProgramLinkErrors]
    split_ifs <;> simp [List.filterMap_append, hA, hD2]
  · simp only [Refactoring.linkShaders, Refactoring.checkProgramLinkErrors]
    split_ifs <;> simp [List.filterMap_append, hA2, hD]
  · intro h
    simp only [Refactoring.linkShaders, Refactoring.checkProgramLinkErrors]
    split_ifs <;> simp [List.count_append, List.count_cons, hC, hC2]

/-- C5: the two check functions print a diagnostic exactly when the queried
status is 0, that is, when the variable `success` holds 0 after the query (it
also does when the query stores nothing, the variable being fresh).  Building
the program (`compileShader` then `linkShaders`) prints nothing exactly when the
two compile statuses and the link status are all non-zero.  With status 0
exactly one line is printed, the header followed by the captured log, and what
is written is not empty (it is longer than 512 bytes).  Whatever the statuses,
`compileShader` returns the vertex shader handle then the fragment shader
handle. -/
theorem check_errors_print_iff_status_zero (drv : Driver) (shader program : Nat)
    (success : Int) (stored : Option Int) (driverLog : List Nat) :
    (prints (Refactoring.checkShaderCompileErrors shader (some success) driverLog) ≠ []
        ↔ success = 0)
    ∧ (prints (Refactoring.checkProgramLinkErrors program (some success) driverLog) ≠ []
        ↔ success = 0)
    ∧ (prints (Refactoring.checkShaderCompileErrors shader stored driverLog) ≠ []
        ↔ stored.getD 0 = 0)
    ∧ (prints (Refactoring.checkProgramLinkErrors program stored driverLog) ≠ []
        ↔ stored.getD 0 = 0)
    ∧ (prints ((Refactoring.compileShader drv).2
          ++ (Refactoring.linkShaders drv.program drv.linkStatus drv.programLog
                (Refactoring.compileShader drv).1).2) = []
        ↔ (drv.vertexStatus.getD 0 ≠ 0 ∧ drv.fragmentStatus.getD 0 ≠ 0
            ∧ drv.linkStatus.getD 0 ≠ 0))
    ∧ prints (Refactoring.checkShaderCompileErrors shader (some 0) driverLog)
        = [[Operand.text "ERROR::SHADER::COMPILATION_FAILED\n",
            Operand.bytes (infoLogString driverLog)]]
    ∧ prints (Refactoring.checkProgramLinkErrors program (some 0) driverLog)
        = [[Operand.text "ERROR::PROGRAM::LINK_FAILED\n",
            Operand.bytes (infoLogString driverLog)]]
    ∧ printlnBytes [Operand.text "ERROR::SHADER::COMPILATION_FAILED\n",
          Operand.bytes (infoLogString driverLog)] ≠ []
    ∧ printlnBytes [Operand.text "ERROR::PROGRAM::LINK_FAILED\n",
          Operand.bytes (infoLogString driverLog)] ≠ []
    ∧ 512 < (printlnBytes [Operand.text "ERROR::SHADER::COMPILATION_FAILED\n",
          Operand.bytes (infoLogString driverLog)]).length
    ∧ 512 < (printlnBytes [Operand.text "ERROR::PROGRAM::LINK_FAILED\n",
          Operand.bytes (infoLogString driverLog)]).length
    ∧ (Refactoring.compileShader drv).1 = [drv.vertexShader, drv.fragmentShader] := by
  have hmap : ∀ (l : List Nat) (created : Nat),
      prints (l.map (Event.attachShader created)) = [] ∧
      prints (l.map Event.deleteShader) = [] := by
    intro l created
    induction l with
    | nil => exact ⟨rfl, rfl⟩
    | cons a t ih => exact ⟨by simp [prints], by simp [prints]⟩
  have hS : ∀ (st : Option Int),
      (prints (Refactoring.checkShaderCompileErrors shader st driverLog) ≠ []
        ↔ st.getD 0 = 0) := by
    intro st
    by_cases hs : st.getD 0 = 0 <;> simp [Refactoring.checkShaderCompileErrors, prints, hs]
  have hP : ∀ (st : Option Int),
      (prints (Refactoring.checkProgramLinkErrors program st driverLog) ≠ []
        ↔ st.getD 0 = 0) := by
    intro st
    by_cases hs : st.getD 0 = 0 <;> simp [Refactoring.checkProgramLinkErrors, prints, hs]
  refine ⟨hS (some success), hP (some success), hS stored, hP stored, ?_, ?_, ?_, ?_, ?_,
    ?_, ?_, rfl⟩
  · simp only [Refactoring.compileShader, Refactoring.linkShaders, prints_append,
      (hmap _ _).1, (hmap _ _).2, Refactoring.checkShaderCompileErrors,
      Refactoring.checkProgramLinkErrors]
    by_cases h1 : drv.vertexStatus.getD 0 = 0 <;>
      by_cases h2 : drv.fragmentStatus.getD 0 = 0 <;>
      by_cases h3 : drv.linkStatus.getD 0 = 0 <;> simp [prints, h1, h2, h3]
  · simp [Refactoring.checkShaderCompileErrors, prints]
  · simp [Refactoring.checkProgramLinkErrors, prints]
  · simp [printlnBytes]
  · simp [printlnBytes]
  · rw [printlnBytes_header_log, List.length_append, List.length_append, List.length_append,
      infoLogString_length, List.length_singleton, List.length_singleton]
    omega
  · rw [printlnBytes_header_log, List.length_append, List.length_append, List.length_append,
      infoLogString_length, List.length_singleton, List.length_singleton]
    omega

/-- C9: whatever the info log the driver holds, of any length, the log the
diagnostics print fits the fixed buffer.  The captured log is 512 bytes long (so
at most 512) and starts with the first 511 bytes of the driver log; with status
0 the check functions query the log with capacity 512 and print the captured
log; and in every run of either triangle program every info-log query passes
capacity 512 and no printed log operand is longer than 512 bytes. -/
theorem diagnostic_log_bounded_by_buffer (env : Env) (shader program : Nat)
    (driverLog : List Nat) :
    (infoLogString driverLog).length ≤ 512
    ∧ (infoLogString driverLog).take (min driverLog.length 511) = driverLog.take 511
    ∧ Refactoring.checkShaderCompileErrors shader (some 0) driverLog
        = [Event.getShaderiv shader .COMPILE_STATUS,
           Event.getShaderInfoLog shader 512,
           Event.println [Operand.text "ERROR::SHADER::COMPILATION_FAILED\n",
             Operand.bytes (infoLogString driverLog)]]
    ∧ Refactoring.checkProgramLinkErrors program (some 0) driverLog
        = [Event.getProgramiv program .LINK_STATUS,
           Event.getProgramInfoLog program 512,
           Event.println [Operand.text "ERROR::PROGRAM::LINK_FAILED\n",
             Operand.bytes (infoLogString driverLog)]]
    ∧ (Refactoring.main env).events.all Event.logWithinBuffer = true
    ∧ (HelloTriangle.main env).events.all Event.logWithinBuffer = true := by
  have hdraw : ∀ p v, (drawCalls p v).all Event.logWithinBuffer = true := by
    intro p v; simp [drawCalls, Event.logWithinBuffer]
  have hloop : ∀ p v frames, (renderLoop (drawCalls p v) false frames).1.all
      Event.logWithinBuffer = true := fun p v frames =>
    renderLoop_all Event.logWithinBuffer (drawCalls p v) (hdraw p v) rfl rfl rfl rfl rfl rfl
      frames false
  have hlen := infoLogString_length
  refine ⟨le_of_eq (hlen _), infoLogString_prefix _, ?_, ?_, ?_, ?_⟩
  · simp [Refactoring.checkShaderCompileErrors]
  · simp [Refactoring.checkProgramLinkErrors]
  · have hs := startup_logWithinBuffer env
    have hl := hloop env.drv.program env.drv.vao env.frames
    have hsb : (Refactoring.shaderBuild env.drv).all Event.logWithinBuffer = true := by
      simp only [Refactoring.shaderBuild, Refactoring.compileShader, Refactoring.linkShaders,
        Refactoring.checkShaderCompileErrors, Refactoring.checkProgramLinkErrors]
      split_ifs <;> simp [Event.logWithinBuffer, hlen]
    rw [refactoring_events]
    by_cases hi : initFails env = true
    · rw [if_pos hi]; exact hs
    · rw [if_neg hi]
      by_cases he : loopEnds env.frames = true <;>
        simp [he, hs, hsb, hl, Refactoring.createTriangleVAO, Event.logWithinBuffer]
  · have hs := startup_logWithinBuffer env
    have hl := hloop env.drv.program env.drv.vao env.frames
    have hsb : (HelloTriangle.shaderSetup env.drv).all Event.logWithinBuffer = true := by
      simp only [HelloTriangle.shaderSetup]
      split_ifs <;> simp [Event.logWithinBuffer, hlen]
    rw [helloTriangle_events]
    by_cases hi : initFails env = true
    · rw [if_pos hi]; exact hs
    · rw [if_neg hi]
      by_cases he : loopEnds env.frames = true <;>
        simp [he, hs, hsb, hl, HelloTriangle.vertexSetup, Event.logWithinBuffer]

/-- C8: when the escape key reads as pressed in an iteration that starts with the
flag unset, and neither `SwapBuffers` nor `PollEvents` clears the flag,
`processInput` calls `SetShouldClose(true)` and leaves the flag set, and the
loop ends after that iteration: the next evaluation of the loop condition is
the last call, and no later frame input is consumed.  When the key is not
pressed `processInput` only queries the key and leaves the flag as it was. -/
theorem escape_ends_loop_after_iteration (draw : List Event) (fi : FrameInput)
    (rest : List FrameInput) (key : Action) (flag : Bool)
    (hkey : fi.escape = Action.Press) (hswap : fi.swapEffect ≠ FlagEffect.clear)
    (hpoll : fi.pollEffect ≠ FlagEffect.clear) (hrel : key ≠ Action.Press) :
    processInput fi.escape false
        = ([Event.getKey .KeyEscape, Event.setShouldClose true], true)
    ∧ (frame draw fi false).2 = true
    ∧ renderLoop draw false (fi :: rest)
        = (Event.shouldClose :: (frame draw fi false).1 ++ [Event.shouldClose], true)
    ∧ processInput key flag = ([Event.getKey .KeyEscape], flag) := by
  have hp : processInput fi.escape false
      = ([Event.getKey .KeyEscape, Event.setShouldClose true], true) := by
    simp [processInput, hkey]
  have hf : (frame draw fi false).2 = true := by
    simp only [frame, hp]
    cases hs : fi.swapEffect <;> cases hq : fi.pollEffect <;>
      simp_all [FlagEffect.apply]
  refine ⟨hp, hf, ?_, ?_⟩
  · cases rest <;> simp [renderLoop, hf]
  · simp [processInput, hrel]

theorem escape_ends_loop_after_iteration_witness :
    escapeFrame.escape = Action.Press ∧ escapeFrame.swapEffect ≠ FlagEffect.clear
    ∧ escapeFrame.pollEffect ≠ FlagEffect.clear ∧ Action.Release ≠ Action.Press
    ∧ processInput escapeFrame.escape false
        = ([Event.getKey .KeyEscape, Event.setShouldClose true], true)
    ∧ (frame [] escapeFrame false).2 = true
    ∧ renderLoop [] false (escapeFrame :: [resizeFrame])
        = (Event.shouldClose :: (frame [] escapeFrame false).1 ++ [Event.shouldClose], true)
    ∧ processInput Action.Release false = ([Event.getKey .KeyEscape], false) :=
  ⟨rfl, by decide, by decide, by decide,
    escape_ends_loop_after_iteration [] escapeFrame [resizeFrame] Action.Release false
      rfl (by decide) (by decide) (by decide)⟩

/-- C6: each of the three programs exits with code 1 exactly when an
initialisation fails (`glfw.Init`, `glfw.CreateWindow` with an error or a nil
window, or `gl.Init`), and such a run issues no shader, buffer or draw call.
Each exits with code 0 exactly when no initialisation fails and the render loop
ends, whatever the compile and link statuses; no other exit code occurs. -/
theorem exit_code_one_iff_init_fails (env : Env) :
    (((HelloWindow.main env).exit = some 1 ↔ initFails env = true)
      ∧ ((HelloTriangle.main env).exit = some 1 ↔ initFails env = true)
      ∧ ((Refactoring.main env).exit = some 1 ↔ initFails env = true))
    ∧ ((initFails env && (HelloWindow.main env).events.any Event.isShaderBufferOrDraw) = false
      ∧ (initFails env && (HelloTriangle.main env).events.any Event.isShaderBufferOrDraw)
          = false
      ∧ (initFails env && (Refactoring.main env).events.any Event.isShaderBufferOrDraw)
          = false)
    ∧ (((HelloWindow.main env).exit = some 0
          ↔ (initFails env = false ∧ loopEnds env.frames = true))
      ∧ ((HelloTriangle.main env).exit = some 0
          ↔ (initFails env = false ∧ loopEnds env.frames = true))
      ∧ ((Refactoring.main env).exit = some 0
          ↔ (initFails env = false ∧ loopEnds env.frames = true)))
    ∧ (((HelloWindow.main env).exit = none
          ↔ (initFails env = false ∧ loopEnds env.frames = false))
      ∧ ((HelloTriangle.main env).exit = none
          ↔ (initFails env = false ∧ loopEnds env.frames = false))
      ∧ ((Refactoring.main env).exit = none
          ↔ (initFails env = false ∧ loopEnds env.frames = false))) := by
  have hno := startup_no_rendering env
  have hiff := startup_ok_iff env
  rw [helloWindow_exit, helloTriangle_exit, refactoring_exit]
  cases hi : initFails env
  · cases hl : loopEnds env.frames <;> simp
  · have h0 : (startup env).2 = false := hiff.mpr hi
    have e1 : (HelloWindow.main env).events = (startup env).1 := by
      simp [HelloWindow.main, h0]
    have e2 : (HelloTriangle.main env).events = (startup env).1 := by
      simp [HelloTriangle.main, h0]
    have e3 : (Refactoring.main env).events = (startup env).1 := by
      simp [Refactoring.main, h0]
    rw [e1, e2, e3, hno]
    simp

/-- C2 (fails on the code): in the sample run, which reaches the end of the
render loop and exits with code 0, the refactoring variant creates the vertex
buffer with handle 5 and never deletes it, while the original program deletes
it once. -/
theorem refactoring_never_deletes_vertex_buffer :
    (Refactoring.main sampleEnv).exit = some 0
    ∧ GPUObject.buffer 5 ∈ created (Refactoring.main sampleEnv).events
    ∧ (deleted (Refactoring.main sampleEnv).events).count (GPUObject.buffer 5) = 0
    ∧ created (Refactoring.main sampleEnv).events
        = [.shader 1, .shader 2, .program 3, .vertexArray 4, .buffer 5]
    ∧ deleted (Refactoring.main sampleEnv).events
        = [.shader 1, .shader 2, .vertexArray 4, .program 3]
    ∧ (deleted (HelloTriangle.main sampleEnv).events).count (GPUObject.buffer 5) = 1 := by
  decide

/-- C3 (fails as stated): the two triangle programs do not always issue the same
graphics-API calls.  In the sample run both exit with code 0, but the original
unbinds the array buffer with `BindBuffer(ARRAY_BUFFER, 0)` and deletes the
vertex buffer with `DeleteBuffers`, and the refactoring variant issues neither
call.  In the run with `staleDriver`, where the fragment status query stores
nothing, the original tests the 1 left in its shared variable `success` and
makes 15 shader and program calls, while the refactoring variant tests a fresh
0 and makes 16, the one more being `GetShaderInfoLog(0, 512)`; there the two
sequences differ even with the unbind added and `DeleteBuffers` left aside. -/
theorem refactoring_calls_differ :
    glCalls (HelloTriangle.main sampleEnv).events ≠ glCalls (Refactoring.main sampleEnv).events
    ∧ (HelloTriangle.main sampleEnv).exit = some 0
    ∧ (Refactoring.main sampleEnv).exit = some 0
    ∧ Event.bindBuffer .ARRAY_BUFFER 0 ∈ glCalls (HelloTriangle.main sampleEnv).events
    ∧ Event.bindBuffer .ARRAY_BUFFER 0 ∉ glCalls (Refactoring.main sampleEnv).events
    ∧ Event.deleteBuffers 1 5 ∈ glCalls (HelloTriangle.main sampleEnv).events
    ∧ Event.deleteBuffers 1 5 ∉ glCalls (Refactoring.main sampleEnv).events
    ∧ Event.getShaderInfoLog 0 512 ∉ glCalls (HelloTriangle.main staleEnv).events
    ∧ Event.getShaderInfoLog 0 512 ∈ glCalls (Refactoring.main staleEnv).events
    ∧ (glCalls (HelloTriangle.shaderSetup staleDriver)).length = 15
    ∧ (glCalls (Refactoring.shaderBuild staleDriver)).length = 16
    ∧ dropBufferDeletes (glCalls (HelloTriangle.main staleEnv).events)
        ≠ dropBufferDeletes (insertUnbind (glCalls (Refactoring.main staleEnv).events)) := by
  decide

/-- C3 (amended): for every behaviour of the external libraries the two triangle
programs exit with the same code.  With `DeleteBuffers` calls left aside, the
graphics-API calls of the original are those of the refactoring variant, in the
same order and with the same arguments, with one more call, a
`BindBuffer(ARRAY_BUFFER, 0)` right after `EnableVertexAttribArray(0)`, exactly
in the runs in which an initialisation fails or every status query of the
original that stores nothing finds 0 left in its shared variable `success`.
That condition holds whenever the fragment and the link status queries each
store a status (`a` and `b`). -/
theorem refactoring_same_calls_up_to_unbind (env : Env) (a b : Int) :
    (Refactoring.main env).exit = (HelloTriangle.main env).exit
    ∧ (dropBufferDeletes (glCalls (HelloTriangle.main env).events)
          = dropBufferDeletes (insertUnbind (glCalls (Refactoring.main env).events))
        ↔ (initFails env = true ∨ staleSuccessIsZero env.drv = true))
    ∧ staleSuccessIsZero { env.drv with fragmentStatus := some a, linkStatus := some b }
        = true := by
  refine ⟨by rw [refactoring_exit, helloTriangle_exit], ?_, by simp [staleSuccessIsZero]⟩
  rw [helloTriangle_events, refactoring_events]
  have hs := insertUnbind_plain _ (glCalls_plain _ (startup_plain env))
  have hb := insertUnbind_plain _ (glCalls_plain _ (shaderBuild_plain env.drv))
  have hl := insertUnbind_plain _ (glCalls_plain _
    (loop_plain env.drv.program env.drv.vao env.frames false))
  have hdb := dropBufferDeletes_plain _ (glCalls_plain _ (shaderBuild_plain env.drv))
  have hds := dropBufferDeletes_plain _ (glCalls_plain _ (shaderSetup_plain env.drv))
  have hv := vertex_glCalls_eq env.drv.vao env.drv.vbo
  have hsh := shader_glCalls_iff env.drv
  by_cases hi : initFails env = true
  · rw [if_pos hi, if_pos hi, hs]
    simp [hi]
  · rw [if_neg hi, if_neg hi]
    have ht : dropBufferDeletes (glCalls
          (if loopEnds env.frames = true then
            [Event.deleteVertexArrays 1 env.drv.vao, Event.deleteBuffers 1 env.drv.vbo,
              Event.deleteProgram env.drv.program]
          else []))
        = dropBufferDeletes (insertUnbind (glCalls
          (if loopEnds env.frames = true then
            [Event.deleteVertexArrays 1 env.drv.vao, Event.deleteProgram env.drv.program]
          else []))) := by
      by_cases he : loopEnds env.frames = true
      · simp [he, glCalls, insertUnbind, dropBufferDeletes, Event.isGL,
          Event.isShaderBufferOrDraw]
      · simp [he, glCalls, insertUnbind, dropBufferDeletes]
    simp only [glCalls_append, insertUnbind_append, dropBufferDeletes_append,
      hs, hb, hl, hv, ht, hdb, hds, List.append_assoc, List.append_right_inj,
      List.append_left_inj, hsh]
    simp [hi]

/-- C10: in both triangle programs every iteration of the render loop issues,
after the loop condition and in this order, the input check, the clear of the
colour buffer to (0.2, 0.3, 0.3, 1.0), the activation of the program, the
binding of the vertex array, one draw of 3 vertices from 0 as a triangle list,
the buffer swap and the event poll (with the viewport calls of the size
callback inside the poll).  The events of a run are the setup, then these
iterations, then the last loop condition and the teardown; the program and the
vertex array of the iterations are the ones the setup created, and at every
draw call of a run the program of the latest `UseProgram` and the vertex array
of the latest `BindVertexArray` are those two. -/
theorem render_loop_iteration_order (env : Env) (shaderProgram VAO : Nat) (fi : FrameInput)
    (flag : Bool) :
    (frame (drawCalls shaderProgram VAO) fi flag).1 = iterationCalls shaderProgram VAO fi
    ∧ (iterationCalls shaderProgram VAO fi).filter
        (fun e => match e with | .drawArrays _ _ _ => true | _ => false)
        = [Event.drawArrays .TRIANGLES 0 3]
    ∧ (renderLoop (drawCalls shaderProgram VAO) false env.frames).1
        = (env.frames.take (iterations false env.frames)).flatMap
            (fun fi => Event.shouldClose :: iterationCalls shaderProgram VAO fi)
          ++ (if loopEnds env.frames = true then [Event.shouldClose] else [])
    ∧ (HelloTriangle.main env).events
        = (if initFails env = true then (startup env).1
          else (startup env).1 ++ HelloTriangle.shaderSetup env.drv
            ++ HelloTriangle.vertexSetup env.drv.vao env.drv.vbo
            ++ (renderLoop (drawCalls env.drv.program env.drv.vao) false env.frames).1
            ++ (if loopEnds env.frames = true then
                  [Event.deleteVertexArrays 1 env.drv.vao, Event.deleteBuffers 1 env.drv.vbo,
                   Event.deleteProgram env.drv.program]
                else []))
    ∧ (Refactoring.main env).events
        = (if initFails env = true then (startup env).1
          else (startup env).1 ++ Refactoring.shaderBuild env.drv
            ++ (Refactoring.createTriangleVAO env.drv.vao env.drv.vbo).2
            ++ (renderLoop (drawCalls env.drv.program env.drv.vao) false env.frames).1
            ++ (if loopEnds env.frames = true then
                  [Event.deleteVertexArrays 1 env.drv.vao,
                   Event.deleteProgram env.drv.program]
                else []))
    ∧ created (HelloTriangle.main env).events
        = (if initFails env = true then []
          else [.shader env.drv.vertexShader, .shader env.drv.fragmentShader,
                .program env.drv.program, .vertexArray env.drv.vao, .buffer env.drv.vbo])
    ∧ created (Refactoring.main env).events
        = (if initFails env = true then []
          else [.shader env.drv.vertexShader, .shader env.drv.fragmentShader,
                .program env.drv.program, .vertexArray env.drv.vao, .buffer env.drv.vbo])
    ∧ drawContexts (0, 0) (HelloTriangle.main env).events
        = List.replicate (if initFails env = true then 0 else iterations false env.frames)
            (env.drv.program, env.drv.vao)
    ∧ drawContexts (0, 0) (Refactoring.main env).events
        = List.replicate (if initFails env = true then 0 else iterations false env.frames)
            (env.drv.program, env.drv.vao) := by
  have hsq := startup_quiet env
  have hsc := created_quiet _ hsq
  have hsd := drawContexts_quiet _ hsq
  have hlc := loop_created env.drv.program env.drv.vao env.frames false
  have hld := loop_drawContexts env.drv.program env.drv.vao env.frames false
  have hshc := shaderSetup_created env.drv
  have hshd := shaderSetup_quiet_draw env.drv
  refine ⟨frame_iterationCalls _ _ _ _, ?_, ?_, helloTriangle_events env,
    refactoring_events env, ?_, ?_, ?_, ?_⟩
  · have hv : ∀ l : List (Int × Int),
        (l.map (fun _ => Event.viewport 0 0 800 600)).filter
          (fun e => match e with | .drawArrays _ _ _ => true | _ => false) = [] := by
      intro l; induction l with
      | nil => rfl
      | cons a t ih => simp
    unfold iterationCalls
    split <;> simp [List.filter_append, hv]
  · rw [loop_iterations]; rfl
  · rw [helloTriangle_events]
    by_cases hi : initFails env = true
    · rw [if_pos hi, if_pos hi, hsc]
    · rw [if_neg hi, if_neg hi]
      simp only [created_append, hsc, hlc, hshc.1]
      by_cases he : loopEnds env.frames = true <;>
        simp [he, HelloTriangle.vertexSetup, created, Event.creates]
  · rw [refactoring_events]
    by_cases hi : initFails env = true
    · rw [if_pos hi, if_pos hi, hsc]
    · rw [if_neg hi, if_neg hi]
      simp only [created_append, hsc, hlc, hshc.2]
      by_cases he : loopEnds env.frames = true <;>
        simp [he, Refactoring.createTriangleVAO, created, Event.creates]
  · rw [helloTriangle_events]
    by_cases hi : initFails env = true
    · rw [if_pos hi, if_pos hi, (hsd _).1]; rfl
    · rw [if_neg hi, if_neg hi]
      simp only [drawContexts_append, (hsd _).1, (hshd _).1, hld]
      by_cases he : loopEnds env.frames = true <;>
        simp [he, HelloTriangle.vertexSetup, drawContexts]
  · rw [refactoring_events]
    by_cases hi : initFails env = true
    · rw [if_pos hi, if_pos hi, (hsd _).1]; rfl
    · rw [if_neg hi, if_neg hi]
      simp only [drawContexts_append, (hsd _).1, (hshd _).2, hld]
      by_cases he : loopEnds env.frames = true <;>
        simp [he, Refactoring.createTriangleVAO, drawContexts]

end LearnOpenGL
